import Mathlib

/-!
Verification of the subprocess lifecycle supervisor in src/lib/Launcher.js.

The file shallowly embeds the five components of the launcher:
the argument composer (Launcher.launch, lines 63 to 97), the signal wiring
(lines 127 to 133), the termination controller (killChrome and
forceKillChrome, lines 149 to 173), the close-event cleanup
(waitForChromeToClose, lines 112 to 125), and the handshake synchronizer
(waitForWSEndpoint, lines 224 to 273).

JavaScript values that can be absent are modelled with Option; JavaScript
truthiness on an optional boolean is `= some true`, the check `!== false`
is `≠ some false`, and truthiness of an optional string additionally
treats the empty string as falsy.
-/

set_option autoImplicit false

namespace PuppeteerLauncher

/-- The configuration surface recognized by Launcher.launch.  Fields that a
caller may omit are Options; `none` models an absent (undefined) key. -/
structure LaunchOptions where
  executablePath : Option String := none
  args : Option (List String) := none
  userDataDir : Option String := none
  env : Option (List (String × String)) := none
  headless : Option Bool := none
  devtools : Option Bool := none
  appMode : Option Bool := none
  dumpio : Option Bool := none
  handleSIGINT : Option Bool := none
  handleSIGTERM : Option Bool := none
  handleSIGHUP : Option Bool := none
  slowMo : Option Nat := none
  timeout : Option Nat := none
deriving Repr, DecidableEq

/-- JavaScript truthiness of an optional boolean. -/
def truthy : Option Bool → Bool
  | some b => b
  | none => false

/-- JavaScript truthiness of an optional string: absent and empty strings
are falsy. -/
def truthyStr : Option String → Bool
  | some s => !(s == "")
  | none => false

/-- JavaScript `a.startsWith(b)`, modelled on the character lists. -/
def jsStartsWith (s pre : String) : Bool :=
  pre.data.isPrefixOf s.data

/-- DEFAULT_ARGS, Launcher.js lines 35 to 50. -/
def DEFAULT_ARGS : List String :=
  [ "--disable-background-networking",
    "--disable-background-timer-throttling",
    "--disable-client-side-phishing-detection",
    "--disable-default-apps",
    "--disable-extensions",
    "--disable-hang-monitor",
    "--disable-popup-blocking",
    "--disable-prompt-on-repost",
    "--disable-sync",
    "--disable-translate",
    "--metrics-recording-only",
    "--no-first-run",
    "--remote-debugging-port=0",
    "--safebrowsing-disable-auto-update" ]

/-- AUTOMATION_ARGS, Launcher.js lines 52 to 56. -/
def AUTOMATION_ARGS : List String :=
  [ "--enable-automation",
    "--password-store=basic",
    "--use-mock-keychain" ]

/-- The four flags pushed when headless is in effect,
Launcher.js lines 82 to 89. -/
def HEADLESS_ARGS : List String :=
  [ "--headless",
    "--disable-gpu",
    "--hide-scrollbars",
    "--mute-audio" ]

/-- Line 72: true when `options.args` is absent or no element of it starts
with `--user-data-dir`; in that case launch pushes a user-data-dir
argument. -/
def needsUserDataDirArg (options : LaunchOptions) : Bool :=
  match options.args with
  | none => true
  | some args => !(args.any (fun arg => jsStartsWith arg "--user-data-dir"))

/-- Lines 72 to 74: launch calls mkdtemp exactly when it will push a
user-data-dir argument and `options.userDataDir` is falsy. -/
def allocatesTempDir (options : LaunchOptions) : Bool :=
  needsUserDataDirArg options && !(truthyStr options.userDataDir)

/-- The argument composer: Launcher.launch lines 63 to 97.  `freshTempDir`
stands for the uniquely named directory mkdtemp would return on this run;
mkdtemp guarantees distinct runs receive distinct names.  Returns the
composed chromeArguments list and temporaryUserDataDir (the directory the
launcher allocated and owns, or none). -/
def composeChromeArguments (options : LaunchOptions) (freshTempDir : String) :
    List String × Option String :=
  -- lines 66 to 70: start from DEFAULT_ARGS; app mode forces headless off,
  -- otherwise AUTOMATION_ARGS are pushed
  let headless0 := if truthy options.appMode then some false else options.headless
  let args0 := if truthy options.appMode then DEFAULT_ARGS
               else DEFAULT_ARGS ++ AUTOMATION_ARGS
  -- lines 72 to 77: user-data-dir selection
  let temporaryUserDataDir : Option String :=
    if allocatesTempDir options then some freshTempDir else none
  let args1 :=
    if needsUserDataDirArg options then
      args0 ++ ["--user-data-dir=" ++
        (if truthyStr options.userDataDir then options.userDataDir.getD ""
         else freshTempDir)]
    else args0
  -- lines 78 to 81: devtools pushes a flag and forces headless off
  let args2 := if options.devtools = some true then
                 args1 ++ ["--auto-open-devtools-for-tabs"]
               else args1
  let headless1 := if options.devtools = some true then some false else headless0
  -- lines 82 to 89: headless flags unless headless was set to false
  let args3 := if headless1 ≠ some false then args2 ++ HEADLESS_ARGS else args2
  -- lines 96 to 97: caller-supplied args are appended last
  let args4 := args3 ++ options.args.getD []
  (args4, temporaryUserDataDir)

/-- The two termination operations a signal can be wired to. -/
inductive KillAction where
  | forceKillChrome
  | killChrome
deriving Repr, DecidableEq

/-- The events of the process-wide exit emitter that launch subscribes to. -/
inductive ExitEvent where
  | processExit
  | sigint
  | sigterm
  | sighup
deriving Repr, DecidableEq

/-- The listener wiring of Launcher.launch, lines 127 to 133: the process
exit event is always wired to forceKillChrome; each signal listener is
registered only when its handle option is not explicitly false. -/
def wireSignalListeners (options : LaunchOptions) : List (ExitEvent × KillAction) :=
  [(ExitEvent.processExit, KillAction.forceKillChrome)]
  ++ (if options.handleSIGINT ≠ some false then
        [(ExitEvent.sigint, KillAction.forceKillChrome)] else [])
  ++ (if options.handleSIGTERM ≠ some false then
        [(ExitEvent.sigterm, KillAction.killChrome)] else [])
  ++ (if options.handleSIGHUP ≠ some false then
        [(ExitEvent.sighup, KillAction.killChrome)] else [])

/-! ## Handshake synchronizer: waitForWSEndpoint, lines 224 to 273 -/

/-- The event sources of the handshake race: a stderr line from the
readline interface, the readline close event, the child exit event, the
child error event (carrying the error message), and the deadline timer. -/
inductive WSEvent where
  | line (s : String)
  | streamClose
  | childExit
  | childError (msg : String)
  | deadline
deriving Repr, DecidableEq

/-- The settlement of the promise returned by waitForWSEndpoint. -/
inductive WSOutcome where
  | resolved (endpoint : String)
  | rejectedLaunch (msg : String)
  | rejectedTimeout (msg : String)
deriving Repr, DecidableEq

/-- The mutable state of one waitForWSEndpoint call: the accumulated
stderr buffer, the promise settlement (none while pending), whether the
four race listeners are still attached, and whether the deadline timer is
still pending. -/
structure WSState where
  stderr : String
  settled : Option WSOutcome
  listenersAttached : Bool
  timerPending : Bool
deriving Repr, DecidableEq

/-- Line 234: `timeout ? setTimeout(onTimeout, timeout) : 0` — the timer
is armed only for a nonzero timeout.  Listeners are attached and the
buffer empty at the start. -/
def wsInit (timeout : Nat) : WSState :=
  { stderr := "", settled := none, listenersAttached := true,
    timerPending := timeout != 0 }

/-- Line 260: the discovery pattern `^DevTools listening on (ws://.*)$`.
Returns the captured endpoint (everything after the literal) when the
line matches. -/
def matchWSEndpoint (line : String) : Option String :=
  let literal := "DevTools listening on "
  if literal.data.isPrefixOf line.data
      && "ws://".data.isPrefixOf (line.data.drop literal.data.length)
  then some (String.mk (line.data.drop literal.data.length))
  else none

/-- Lines 245: the troubleshooting line of the launch failure message. -/
def troubleshootingLine : String :=
  "TROUBLESHOOTING: https://github.com/GoogleChrome/puppeteer/blob/master/docs/troubleshooting.md"

/-- Lines 241 to 247: the LaunchError message built by onClose, the join
with newlines of the header (plus the underlying error message when
present), the accumulated stderr, an empty line, the troubleshooting
line, and an empty line. -/
def closeMessage (stderr : String) (err : Option String) : String :=
  "Failed to launch chrome!"
  ++ (match err with | some m => " " ++ m | none => "")
  ++ "\n" ++ stderr
  ++ "\n" ++ ""
  ++ "\n" ++ troubleshootingLine
  ++ "\n" ++ ""

/-- Line 252: the TimeoutError message built by onTimeout; it names the
configured timeout and the expected revision. -/
def timeoutMessage (timeout : Nat) (revision : String) : String :=
  "Timed out after " ++ toString timeout
  ++ " ms while trying to connect to Chrome! The only Chrome revision guaranteed to work is r"
  ++ revision

/-- cleanup() plus a rejection through onClose: clear the timer, detach
the listeners, reject with the LaunchError message. -/
def wsReject (s : WSState) (err : Option String) : WSState :=
  { s with settled := some (WSOutcome.rejectedLaunch (closeMessage s.stderr err)),
           listenersAttached := false, timerPending := false }

/-- One event of the handshake race.  Line, close, exit and error events
reach their handlers only while the listeners are attached
(helper.removeEventListeners in cleanup detaches them); the deadline
fires only while the timer is pending (cleanup calls clearTimeout).
onLine (lines 258 to 265) appends to the buffer first and settles only on
a matching line; onClose and onTimeout settle through wsReject and the
timeout message. -/
def wsStep (revision : String) (timeout : Nat) (s : WSState) : WSEvent → WSState
  | WSEvent.line l =>
    if s.listenersAttached then
      let s1 := { s with stderr := s.stderr ++ l ++ "\n" }
      match matchWSEndpoint l with
      | some endpoint =>
        { s1 with settled := some (WSOutcome.resolved endpoint),
                  listenersAttached := false, timerPending := false }
      | none => s1
    else s
  | WSEvent.streamClose => if s.listenersAttached then wsReject s none else s
  | WSEvent.childExit => if s.listenersAttached then wsReject s none else s
  | WSEvent.childError msg =>
    if s.listenersAttached then wsReject s (some msg) else s
  | WSEvent.deadline =>
    if s.timerPending then
      { s with settled := some (WSOutcome.rejectedTimeout (timeoutMessage timeout revision)),
               listenersAttached := false, timerPending := false }
    else s

/-- Deliver a sequence of race events to a fresh waitForWSEndpoint call. -/
def wsRun (revision : String) (timeout : Nat) (events : List WSEvent) : WSState :=
  events.foldl (wsStep revision timeout) (wsInit timeout)

/-- `strContains s sub`: `sub` occurs contiguously inside `s`. -/
def strContains (s sub : String) : Prop :=
  ∃ a b : List Char, s.data = a ++ sub.data ++ b

/-! ## Termination controller and resource cleanup:
killChrome (lines 149 to 158), forceKillChrome (lines 160 to 173) and the
close-event cleanup of waitForChromeToClose (lines 112 to 125). -/

/-- The observable state of one launched SupervisedProcess.
`pid` is the child handle pid (none when spawn produced no pid),
`killed` is chromeProcess.killed, `chromeClosed` is the closure flag set
by the close event, `temporaryUserDataDir` is the directory launch
allocated and owns (none when the caller supplied one),
`dirExists` says whether that directory is currently on disk,
`dirRemovals` counts actual directory removals,
`killSignals` counts OS kill requests sent to the child,
`listenersRegistered` says whether the exit-emitter subscriptions are
still held, `connected` says whether a control connection exists,
`closeRequests` counts graceful Browser.close requests, and
`errorsSurfaced` counts errors surfaced to the caller by a termination
path. -/
structure LaunchState where
  pid : Option Nat
  killed : Bool
  chromeClosed : Bool
  temporaryUserDataDir : Option String
  dirExists : Bool
  dirRemovals : Nat
  killSignals : Nat
  listenersRegistered : Bool
  connected : Bool
  closeRequests : Nat
  errorsSurfaced : Nat
deriving Repr, DecidableEq

/-- Lines 169 to 172: `try { removeFolder.sync(temporaryUserDataDir) }
catch (e) { }`.  When no directory is owned, rimraf throws on the null
path and the catch swallows it; when the directory is owned and present
and removal succeeds (`fails = false`), it is removed; an absent
directory is a successful no-op; a failing removal is swallowed by the
catch, so no error is ever surfaced. -/
def removeFolderSyncSwallowed (fails : Bool) (s : LaunchState) : LaunchState :=
  match s.temporaryUserDataDir with
  | none => s
  | some _ =>
    if s.dirExists && !fails then
      { s with dirExists := false, dirRemovals := s.dirRemovals + 1 }
    else s

/-- forceKillChrome, lines 160 to 173: deregister the listeners, send an
OS-level kill to the process group when the child has a pid and is
neither killed nor already closed, then best-effort synchronous
directory removal with any error swallowed.  `removalFails` says whether
this removal attempt would fail at the filesystem. -/
def forceKillChrome (removalFails : Bool) (s : LaunchState) : LaunchState :=
  let s1 := { s with listenersRegistered := false }
  let s2 := if s1.pid.isSome && !s1.killed && !s1.chromeClosed then
              { s1 with killSignals := s1.killSignals + 1 }
            else s1
  removeFolderSyncSwallowed removalFails s2

/-- killChrome, lines 149 to 158: deregister the listeners; a process
owning a temporary directory escalates straight to forceKillChrome;
otherwise a graceful Browser.close request goes through the connection
when one exists. -/
def killChrome (removalFails : Bool) (s : LaunchState) : LaunchState :=
  let s1 := { s with listenersRegistered := false }
  if s1.temporaryUserDataDir.isSome then forceKillChrome removalFails s1
  else if s1.connected then { s1 with closeRequests := s1.closeRequests + 1 }
  else s1

/-- The close-event handler of waitForChromeToClose, lines 114 to 124:
set chromeClosed, and when a temporary directory is owned remove it
asynchronously; rimraf treats an already absent directory as success, and
a failing removal is only logged (never surfaced). -/
def chromeCloseEvent (removalFails : Bool) (s : LaunchState) : LaunchState :=
  let s1 := { s with chromeClosed := true }
  match s1.temporaryUserDataDir with
  | none => s1
  | some _ =>
    if s1.dirExists && !removalFails then
      { s1 with dirExists := false, dirRemovals := s1.dirRemovals + 1 }
    else s1

/-- A termination trigger: the forced path, the graceful path, or the
child close event; each carries whether its removal attempt (if reached)
would fail at the filesystem. -/
inductive KillTrigger where
  | forced (removalFails : Bool)
  | graceful (removalFails : Bool)
  | closeEvent (removalFails : Bool)
deriving Repr, DecidableEq

/-- Apply one termination trigger to the process state. -/
def applyTrigger (s : LaunchState) : KillTrigger → LaunchState
  | KillTrigger.forced f => forceKillChrome f s
  | KillTrigger.graceful f => killChrome f s
  | KillTrigger.closeEvent f => chromeCloseEvent f s

/-- Apply a sequence of termination triggers in order. -/
def runTriggers (s : LaunchState) (ts : List KillTrigger) : LaunchState :=
  ts.foldl applyTrigger s

/-- Lines 136 to 144: the try/catch around the handshake and connection
setup.  `body` is the outcome of the try block (endpoint handshake plus
connection setup); on failure, forceKillChrome runs first and the same
error is rethrown to the caller as the single rejected outcome. -/
def launchTryFinish (removalFails : Bool) (s : LaunchState)
    (body : Except String String) : Except String String × LaunchState :=
  match body with
  | Except.ok endpoint => (Except.ok endpoint, s)
  | Except.error e => (Except.error e, forceKillChrome removalFails s)

/-- The settlement state of a promise that is fulfilled at most once and
never rejected. -/
inductive PromiseState where
  | pending
  | fulfilled
deriving Repr, DecidableEq

/-- Lines 113 to 125: the settlement of the waitForChromeToClose promise
once the close event has fired, paired with the number of errors logged
to the console.  fulfill is called directly when no temporary directory
is owned, and after a successful asynchronous removal otherwise; when the
removal fails, the catch only logs the error and fulfill is never
reached, so the promise stays pending forever (no other code settles
it). -/
def waitForChromeToCloseAfterClose (temporaryUserDataDir : Option String)
    (removalFails : Bool) : PromiseState × Nat :=
  match temporaryUserDataDir with
  | none => (PromiseState.fulfilled, 0)
  | some _ =>
    if removalFails then (PromiseState.pending, 1)
    else (PromiseState.fulfilled, 0)

/-! ## Helper lemmas about the handshake race -/

/-- A state with listeners detached and timer cleared absorbs every
event: no handler can run any more. -/
theorem wsStep_stuck (revision : String) (timeout : Nat) (s : WSState) (e : WSEvent)
    (h1 : s.listenersAttached = false) (h2 : s.timerPending = false) :
    wsStep revision timeout s e = s := by
  cases e <;> simp [wsStep, h1, h2]

/-- The race invariant: settlement implies listeners detached and timer
cleared (cleanup runs together with every resolve or reject). -/
def WSInv (s : WSState) : Prop :=
  s.settled.isSome → s.listenersAttached = false ∧ s.timerPending = false

theorem wsInv_init (timeout : Nat) : WSInv (wsInit timeout) := by
  intro h
  simp [wsInit] at h

theorem wsInv_step (revision : String) (timeout : Nat) (s : WSState) (e : WSEvent)
    (h : WSInv s) : WSInv (wsStep revision timeout s e) := by
  intro hs
  cases e with
  | line l =>
    by_cases ha : s.listenersAttached
    · cases hm : matchWSEndpoint l with
      | some ep => simp [wsStep, ha, hm]
      | none =>
        simp [wsStep, ha, hm] at hs
        exact absurd (h hs).1 (by simp [ha])
    · simp only [Bool.not_eq_true] at ha
      have hstep : wsStep revision timeout s (WSEvent.line l) = s := by
        simp [wsStep, ha]
      rw [hstep] at hs ⊢
      exact h hs
  | streamClose =>
    by_cases ha : s.listenersAttached
    · simp [wsStep, ha, wsReject]
    · simp only [Bool.not_eq_true] at ha
      have hstep : wsStep revision timeout s WSEvent.streamClose = s := by
        simp [wsStep, ha]
      rw [hstep] at hs ⊢
      exact h hs
  | childExit =>
    by_cases ha : s.listenersAttached
    · simp [wsStep, ha, wsReject]
    · simp only [Bool.not_eq_true] at ha
      have hstep : wsStep revision timeout s WSEvent.childExit = s := by
        simp [wsStep, ha]
      rw [hstep] at hs ⊢
      exact h hs
  | childError m =>
    by_cases ha : s.listenersAttached
    · simp [wsStep, ha, wsReject]
    · simp only [Bool.not_eq_true] at ha
      have hstep : wsStep revision timeout s (WSEvent.childError m) = s := by
        simp [wsStep, ha]
      rw [hstep] at hs ⊢
      exact h hs
  | deadline =>
    by_cases ht : s.timerPending
    · simp [wsStep, ht]
    · simp only [Bool.not_eq_true] at ht
      have hstep : wsStep revision timeout s WSEvent.deadline = s := by
        simp [wsStep, ht]
      rw [hstep] at hs ⊢
      exact h hs

theorem wsInv_foldl (revision : String) (timeout : Nat) (events : List WSEvent)
    (s : WSState) (h : WSInv s) :
    WSInv (events.foldl (wsStep revision timeout) s) := by
  induction events generalizing s with
  | nil => exact h
  | cons e es ih => exact ih _ (wsInv_step revision timeout s e h)

theorem wsInv_run (revision : String) (timeout : Nat) (events : List WSEvent) :
    WSInv (wsRun revision timeout events) :=
  wsInv_foldl revision timeout events _ (wsInv_init timeout)

/-- Once a state is settled (and satisfies the invariant), delivering any
further events leaves it unchanged. -/
theorem wsFoldl_of_settled (revision : String) (timeout : Nat) (s : WSState)
    (later : List WSEvent) (hinv : WSInv s) (hs : s.settled.isSome) :
    later.foldl (wsStep revision timeout) s = s := by
  induction later with
  | nil => rfl
  | cons e es ih =>
    have hstuck := wsStep_stuck revision timeout s e (hinv hs).1 (hinv hs).2
    simp [hstuck, ih]

/-- C1: the handshake race settles exactly once.  If some event sequence
has settled the promise with outcome `o`, then the listeners were
detached and the deadline timer cancelled together with that settlement,
and delivering any further events from any source leaves the settlement
unchanged: no second resolution or rejection is observable. -/
theorem waitForWSEndpoint_resolves_exactly_once (revision : String) (timeout : Nat)
    (events later : List WSEvent) (o : WSOutcome)
    (h : (wsRun revision timeout events).settled = some o) :
    (wsRun revision timeout events).listenersAttached = false ∧
    (wsRun revision timeout events).timerPending = false ∧
    (wsRun revision timeout (events ++ later)).settled = some o := by
  have hinv := wsInv_run revision timeout events
  have hsome : (wsRun revision timeout events).settled.isSome := by simp [h]
  refine ⟨(hinv hsome).1, (hinv hsome).2, ?_⟩
  have : wsRun revision timeout (events ++ later)
      = wsRun revision timeout events := by
    rw [wsRun, List.foldl_append]
    exact wsFoldl_of_settled revision timeout _ later hinv hsome
  rw [this, h]

/-- Witness for C1 at a concrete input: a stream-close settles the race
with the LaunchError rejection, and a late matching line changes
nothing. -/
theorem waitForWSEndpoint_resolves_exactly_once_witness :
    (wsRun "r0" 100 [WSEvent.streamClose]).settled
      = some (WSOutcome.rejectedLaunch (closeMessage "" none)) ∧
    ((wsRun "r0" 100 [WSEvent.streamClose]).listenersAttached = false ∧
     (wsRun "r0" 100 [WSEvent.streamClose]).timerPending = false ∧
     (wsRun "r0" 100
        ([WSEvent.streamClose] ++ [WSEvent.line "DevTools listening on ws://a"])).settled
      = some (WSOutcome.rejectedLaunch (closeMessage "" none))) :=
  ⟨by decide,
   waitForWSEndpoint_resolves_exactly_once "r0" 100 [WSEvent.streamClose]
     [WSEvent.line "DevTools listening on ws://a"] _ (by decide)⟩

/-- C7: the deadline timer is armed at the start of the race exactly when
the configured timeout is positive; and when the timer fires while the
promise is still pending (no other source has settled it), the race
settles with the TimeoutError, whose message contains the configured
timeout value and the expected child revision. -/
theorem waitForWSEndpoint_timeout_spec (revision : String) (timeout : Nat)
    (events : List WSEvent)
    (_hpending : (wsRun revision timeout events).settled = none)
    (htimer : (wsRun revision timeout events).timerPending = true) :
    ((wsInit timeout).timerPending = true ↔ 0 < timeout) ∧
    (wsStep revision timeout (wsRun revision timeout events) WSEvent.deadline).settled
      = some (WSOutcome.rejectedTimeout (timeoutMessage timeout revision)) ∧
    strContains (timeoutMessage timeout revision) (toString timeout) ∧
    strContains (timeoutMessage timeout revision) revision := by
  refine ⟨?_, ?_, ?_, ?_⟩
  · simp [wsInit, Nat.pos_iff_ne_zero]
  · simp [wsStep, htimer]
  · refine ⟨("Timed out after ").data, (" ms while trying to connect to Chrome! The only Chrome revision guaranteed to work is r" ++ revision).data, ?_⟩
    simp [timeoutMessage, String.data_append, List.append_assoc]
  · refine ⟨("Timed out after " ++ toString timeout ++ " ms while trying to connect to Chrome! The only Chrome revision guaranteed to work is r").data, [], ?_⟩
    simp [timeoutMessage, String.data_append, List.append_assoc]

/-- Witness for C7 at a concrete input: timeout 100, no events delivered
yet; the timer is armed, the deadline rejects with the TimeoutError, and
the message names 100 and the revision. -/
theorem waitForWSEndpoint_timeout_spec_witness :
    ((wsRun "508693" 100 []).settled = none ∧
     (wsRun "508693" 100 []).timerPending = true) ∧
    (((wsInit 100).timerPending = true ↔ 0 < 100) ∧
     (wsStep "508693" 100 (wsRun "508693" 100 []) WSEvent.deadline).settled
       = some (WSOutcome.rejectedTimeout (timeoutMessage 100 "508693")) ∧
     strContains (timeoutMessage 100 "508693") (toString 100) ∧
     strContains (timeoutMessage 100 "508693") "508693") :=
  ⟨⟨by decide, by decide⟩,
   waitForWSEndpoint_timeout_spec "508693" 100 [] (by decide) (by decide)⟩

/-- The stderr buffer accumulated by onLine over a sequence of lines:
each line is appended followed by a newline (line 259). -/
def stderrBuffer (lines : List String) : String :=
  lines.foldl (fun acc l => acc ++ l ++ "\n") ""

/-- Delivering only non-matching lines accumulates the buffer and keeps
the race pending with listeners attached. -/
theorem wsFoldl_lines (revision : String) (timeout : Nat) (lines : List String)
    (s : WSState) (ha : s.listenersAttached = true)
    (hnm : ∀ l ∈ lines, matchWSEndpoint l = none) :
    (lines.map WSEvent.line).foldl (wsStep revision timeout) s
      = { s with stderr := lines.foldl (fun acc l => acc ++ l ++ "\n") s.stderr } := by
  induction lines generalizing s with
  | nil => rfl
  | cons l ls ih =>
    have hm : matchWSEndpoint l = none := hnm l (by simp)
    have hstep : wsStep revision timeout s (WSEvent.line l)
        = { s with stderr := s.stderr ++ l ++ "\n" } := by
      simp [wsStep, ha, hm]
    simp only [List.map_cons, List.foldl_cons, hstep]
    exact ih _ (by simp [ha]) (fun x hx => hnm x (by simp [hx]))

/-- C8: if the stderr stream closes, or the child exits or errors, before
any matching line and before the deadline, the race rejects with the
LaunchError whose message contains the accumulated stderr buffer, the
underlying error message when one is present, and the troubleshooting
guidance. -/
theorem waitForWSEndpoint_close_spec (revision : String) (timeout : Nat)
    (lines : List String) (hnm : ∀ l ∈ lines, matchWSEndpoint l = none)
    (e : WSEvent) (err : Option String)
    (he : e = WSEvent.streamClose ∧ err = none ∨
          e = WSEvent.childExit ∧ err = none ∨
          ∃ m, e = WSEvent.childError m ∧ err = some m) :
    (wsRun revision timeout (lines.map WSEvent.line ++ [e])).settled
      = some (WSOutcome.rejectedLaunch (closeMessage (stderrBuffer lines) err)) ∧
    strContains (closeMessage (stderrBuffer lines) err) (stderrBuffer lines) ∧
    (∀ m, err = some m → strContains (closeMessage (stderrBuffer lines) err) m) ∧
    strContains (closeMessage (stderrBuffer lines) err) troubleshootingLine := by
  have hlines : (lines.map WSEvent.line).foldl (wsStep revision timeout) (wsInit timeout)
      = { wsInit timeout with stderr := stderrBuffer lines } := by
    rw [wsFoldl_lines revision timeout lines (wsInit timeout) rfl hnm]
    rfl
  refine ⟨?_, ?_, ?_, ?_⟩
  · rw [wsRun, List.foldl_append, hlines]
    rcases he with ⟨rfl, rfl⟩ | ⟨rfl, rfl⟩ | ⟨m, rfl, rfl⟩ <;>
      simp [wsStep, wsInit, wsReject]
  · refine ⟨("Failed to launch chrome!"
        ++ (match err with | some m => " " ++ m | none => "") ++ "\n").data,
      ("\n" ++ "" ++ "\n" ++ troubleshootingLine ++ "\n" ++ "").data, ?_⟩
    cases err <;> simp [closeMessage, String.data_append, List.append_assoc]
  · rintro m rfl
    refine ⟨("Failed to launch chrome!" ++ " ").data,
      ("\n" ++ stderrBuffer lines ++ "\n" ++ "" ++ "\n"
        ++ troubleshootingLine ++ "\n" ++ "").data, ?_⟩
    simp [closeMessage, String.data_append, List.append_assoc]
  · refine ⟨("Failed to launch chrome!"
        ++ (match err with | some m => " " ++ m | none => "") ++ "\n"
        ++ stderrBuffer lines ++ "\n" ++ "" ++ "\n").data,
      ("\n" ++ "").data, ?_⟩
    cases err <;> simp [closeMessage, String.data_append, List.append_assoc]

/-- Witness for C8 at a concrete input: one non-matching diagnostic line
followed by a child error settles the race with the LaunchError built
from the buffered line and the error message. -/
theorem waitForWSEndpoint_close_spec_witness :
    (∀ l ∈ ["foo"], matchWSEndpoint l = none) ∧
    ((wsRun "r0" 100 ([ "foo" ].map WSEvent.line ++ [WSEvent.childError "boom"])).settled
       = some (WSOutcome.rejectedLaunch (closeMessage (stderrBuffer ["foo"]) (some "boom"))) ∧
     strContains (closeMessage (stderrBuffer ["foo"]) (some "boom")) (stderrBuffer ["foo"]) ∧
     (∀ m, (some "boom" : Option String) = some m →
        strContains (closeMessage (stderrBuffer ["foo"]) (some "boom")) m) ∧
     strContains (closeMessage (stderrBuffer ["foo"]) (some "boom")) troubleshootingLine) :=
  ⟨by decide,
   waitForWSEndpoint_close_spec "r0" 100 ["foo"] (by decide)
     (WSEvent.childError "boom") (some "boom")
     (Or.inr (Or.inr ⟨"boom", rfl, rfl⟩))⟩

/-! ## Claims about the signal wiring and the argument composer -/

/-- C3 counterexample: SIGINT is not wired to forced kill unconditionally.
With handleSIGINT set to false, launch registers no SIGINT listener at
all (line 128 guards the registration), so the claimed unconditional
mapping is absent. -/
theorem sigint_wiring_not_unconditional :
    (ExitEvent.sigint, KillAction.forceKillChrome)
      ∉ wireSignalListeners { handleSIGINT := some false } := by
  decide

/-- C3 amended: SIGINT is wired to forced kill exactly when handleSIGINT
does not disable it; SIGTERM and SIGHUP are wired to graceful close
exactly when handleSIGTERM respectively handleSIGHUP do not disable
them; the process exit event is always wired to forced kill. -/
theorem launch_signal_wiring (o : LaunchOptions) :
    ((ExitEvent.sigint, KillAction.forceKillChrome) ∈ wireSignalListeners o
       ↔ o.handleSIGINT ≠ some false) ∧
    ((ExitEvent.sigterm, KillAction.killChrome) ∈ wireSignalListeners o
       ↔ o.handleSIGTERM ≠ some false) ∧
    ((ExitEvent.sighup, KillAction.killChrome) ∈ wireSignalListeners o
       ↔ o.handleSIGHUP ≠ some false) ∧
    (ExitEvent.processExit, KillAction.forceKillChrome) ∈ wireSignalListeners o := by
  by_cases h1 : o.handleSIGINT = some false <;>
  by_cases h2 : o.handleSIGTERM = some false <;>
  by_cases h3 : o.handleSIGHUP = some false <;>
  simp [wireSignalListeners, h1, h2, h3]

/-- C4 counterexample: with app mode off and devtools set to true, the
automation-stabilization flags are still appended (lines 67 to 70 do not
consult devtools), contradicting the claimed exception. -/
theorem automation_args_despite_devtools :
    truthy ({ devtools := some true } : LaunchOptions).appMode = false ∧
    (∀ a ∈ AUTOMATION_ARGS,
      a ∈ (composeChromeArguments { devtools := some true } "tmp").1) := by
  decide

/-- C4 amended: for every LaunchOptions with app mode off, the composed
argument list includes every automation-stabilization flag, regardless
of the devtools setting. -/
theorem automation_args_when_not_appMode (o : LaunchOptions) (t : String)
    (h : truthy o.appMode = false) :
    ∀ a ∈ AUTOMATION_ARGS, a ∈ (composeChromeArguments o t).1 := by
  intro a ha
  simp only [composeChromeArguments, h]
  split_ifs <;> simp_all [List.mem_append]

/-- Witness for the amended C4 at a concrete input. -/
theorem automation_args_when_not_appMode_witness :
    truthy ({ devtools := some true } : LaunchOptions).appMode = false ∧
    ∀ a ∈ AUTOMATION_ARGS,
      a ∈ (composeChromeArguments { devtools := some true } "tmpW").1 :=
  ⟨by decide,
   automation_args_when_not_appMode { devtools := some true } "tmpW" (by decide)⟩

/-- C5 counterexample: on options that supply neither a user-data-dir
argument nor userDataDir, two runs of the composer see the two distinct
directory names mkdtemp returns, and produce different argument lists. -/
theorem composer_not_deterministic_with_alloc :
    composeChromeArguments {} "tmpA" ≠ composeChromeArguments {} "tmpB" := by
  decide

/-- C5 amended: the Argument Composer is deterministic on every
LaunchOptions that does not allocate a temporary profile directory (the
caller supplied a user-data-dir argument or a nonempty userDataDir): the
composed list does not depend on the fresh directory name.  When a
temporary directory is allocated, its mkdtemp-unique name enters the
argument list, so two runs differ exactly there. -/
theorem composer_deterministic_without_alloc (o : LaunchOptions) (t1 t2 : String)
    (h : allocatesTempDir o = false) :
    composeChromeArguments o t1 = composeChromeArguments o t2 := by
  unfold composeChromeArguments
  by_cases hn : needsUserDataDirArg o
  · have ht : truthyStr o.userDataDir = true := by
      simpa [allocatesTempDir, hn] using h
    simp [allocatesTempDir, hn, ht]
  · simp [allocatesTempDir, hn]

/-- Witness for the amended C5 at a concrete input. -/
theorem composer_deterministic_without_alloc_witness :
    allocatesTempDir { userDataDir := some "/data" } = false ∧
    composeChromeArguments { userDataDir := some "/data" } "tmpA"
      = composeChromeArguments { userDataDir := some "/data" } "tmpB" :=
  ⟨by decide,
   composer_deterministic_without_alloc { userDataDir := some "/data" } "tmpA" "tmpB"
     (by decide)⟩

/-- C9 counterexample: with userDataDir supplied as the empty string (a
supplied but falsy value), launch still allocates a temporary directory
(line 73 tests JavaScript truthiness, not presence), so allocation is not
equivalent to the option being absent. -/
theorem tempDir_allocation_not_iff_unsupplied :
    ¬(((composeChromeArguments { userDataDir := some "" } "tmp").2.isSome = true)
        ↔ (needsUserDataDirArg { userDataDir := some "" } = true ∧
           ({ userDataDir := some "" } : LaunchOptions).userDataDir = none)) := by
  decide

/-- C9 amended: launch allocates the temporary directory exactly when no
supplied argument starts with `--user-data-dir` and userDataDir is absent
or empty; in that case the composed list carries a user-data-dir argument
pointing at the allocated directory; when a nonempty userDataDir is
supplied and no such argument exists, the composed list carries a
user-data-dir argument pointing at it and nothing is allocated; and when
a user-data-dir argument is supplied, nothing is allocated. -/
theorem tempDir_allocation_spec (o : LaunchOptions) (t : String) :
    ((composeChromeArguments o t).2 = some t ↔
      needsUserDataDirArg o = true ∧ truthyStr o.userDataDir = false) ∧
    ((composeChromeArguments o t).2.isSome →
      ("--user-data-dir=" ++ t) ∈ (composeChromeArguments o t).1) ∧
    (needsUserDataDirArg o = true → truthyStr o.userDataDir = true →
      (composeChromeArguments o t).2 = none ∧
      ("--user-data-dir=" ++ o.userDataDir.getD "") ∈ (composeChromeArguments o t).1) ∧
    (needsUserDataDirArg o = false → (composeChromeArguments o t).2 = none) := by
  by_cases hn : needsUserDataDirArg o <;> by_cases ht : truthyStr o.userDataDir <;>
    refine ⟨?_, ?_, ?_, ?_⟩ <;>
    simp only [composeChromeArguments, allocatesTempDir, hn, ht] <;>
    split_ifs <;> simp_all [List.mem_append]

/-- Witness for the amended C9 at a concrete input. -/
theorem tempDir_allocation_spec_witness :
    needsUserDataDirArg { userDataDir := some "/data" } = true ∧
    truthyStr ({ userDataDir := some "/data" } : LaunchOptions).userDataDir = true ∧
    (composeChromeArguments { userDataDir := some "/data" } "tmp").2 = none ∧
    ("--user-data-dir=" ++ ({ userDataDir := some "/data" } : LaunchOptions).userDataDir.getD "")
      ∈ (composeChromeArguments { userDataDir := some "/data" } "tmp").1 := by
  refine ⟨by decide, by decide, ?_⟩
  exact (tempDir_allocation_spec { userDataDir := some "/data" } "tmp").2.2.1
    (by decide) (by decide)

/-! ## Claims about termination and cleanup -/

/-- The directory accounting measure: removals performed so far plus one
if the directory is still on disk.  Every termination step preserves it,
which bounds the number of removals. -/
def dirMeasure (s : LaunchState) : Nat :=
  s.dirRemovals + (if s.dirExists then 1 else 0)

theorem removeFolderSyncSwallowed_measure (f : Bool) (s : LaunchState) :
    dirMeasure (removeFolderSyncSwallowed f s) = dirMeasure s ∧
    (removeFolderSyncSwallowed f s).errorsSurfaced = s.errorsSurfaced ∧
    (removeFolderSyncSwallowed f s).temporaryUserDataDir = s.temporaryUserDataDir := by
  unfold removeFolderSyncSwallowed
  cases htd : s.temporaryUserDataDir with
  | none => simp [htd]
  | some d =>
    by_cases hd : s.dirExists && !f
    · rcases Bool.and_eq_true_iff.mp hd with ⟨hex, hf⟩
      have hf' : f = false := by simpa using hf
      simp [hd, hf', hex, htd, dirMeasure]
    · simp [hd, htd, dirMeasure]

theorem forceKillChrome_measure (f : Bool) (s : LaunchState) :
    dirMeasure (forceKillChrome f s) = dirMeasure s ∧
    (forceKillChrome f s).errorsSurfaced = s.errorsSurfaced ∧
    (forceKillChrome f s).temporaryUserDataDir = s.temporaryUserDataDir := by
  unfold forceKillChrome
  by_cases hk : s.pid.isSome && !s.killed && !s.chromeClosed <;>
    simp only [hk, if_true, if_false, Bool.false_eq_true, ite_true, ite_false] <;>
    · constructor
      · exact (removeFolderSyncSwallowed_measure f _).1.trans (by simp [dirMeasure])
      · refine ⟨(removeFolderSyncSwallowed_measure f _).2.1.trans (by simp), ?_⟩
        exact (removeFolderSyncSwallowed_measure f _).2.2.trans (by simp)

theorem killChrome_measure (f : Bool) (s : LaunchState) :
    dirMeasure (killChrome f s) = dirMeasure s ∧
    (killChrome f s).errorsSurfaced = s.errorsSurfaced ∧
    (killChrome f s).temporaryUserDataDir = s.temporaryUserDataDir := by
  unfold killChrome
  by_cases htd : s.temporaryUserDataDir.isSome
  · simp only [htd, ite_true]
    refine ⟨(forceKillChrome_measure f _).1.trans (by simp [dirMeasure]), ?_, ?_⟩
    · exact (forceKillChrome_measure f _).2.1.trans (by simp)
    · exact (forceKillChrome_measure f _).2.2.trans (by simp)
  · by_cases hc : s.connected <;> simp [htd, hc, dirMeasure]

theorem chromeCloseEvent_measure (f : Bool) (s : LaunchState) :
    dirMeasure (chromeCloseEvent f s) = dirMeasure s ∧
    (chromeCloseEvent f s).errorsSurfaced = s.errorsSurfaced ∧
    (chromeCloseEvent f s).temporaryUserDataDir = s.temporaryUserDataDir := by
  unfold chromeCloseEvent
  cases htd : s.temporaryUserDataDir with
  | none => simp [htd, dirMeasure]
  | some d =>
    by_cases hd : s.dirExists && !f
    · rcases Bool.and_eq_true_iff.mp hd with ⟨hex, hf⟩
      have hf' : f = false := by simpa using hf
      simp [hd, hf', hex, htd, dirMeasure]
    · simp [hd, htd, dirMeasure]

theorem applyTrigger_measure (s : LaunchState) (t : KillTrigger) :
    dirMeasure (applyTrigger s t) = dirMeasure s ∧
    (applyTrigger s t).errorsSurfaced = s.errorsSurfaced := by
  cases t with
  | forced f => exact ⟨(forceKillChrome_measure f s).1, (forceKillChrome_measure f s).2.1⟩
  | graceful f => exact ⟨(killChrome_measure f s).1, (killChrome_measure f s).2.1⟩
  | closeEvent f =>
    exact ⟨(chromeCloseEvent_measure f s).1, (chromeCloseEvent_measure f s).2.1⟩

theorem runTriggers_measure (ts : List KillTrigger) (s : LaunchState) :
    dirMeasure (runTriggers s ts) = dirMeasure s ∧
    (runTriggers s ts).errorsSurfaced = s.errorsSurfaced := by
  induction ts generalizing s with
  | nil => exact ⟨rfl, rfl⟩
  | cons t ts ih =>
    refine ⟨((ih (applyTrigger s t)).1).trans (applyTrigger_measure s t).1, ?_⟩
    exact ((ih (applyTrigger s t)).2).trans (applyTrigger_measure s t).2

/-- A successful forced kill on a process owning a present temporary
directory removes it and counts one removal. -/
theorem forceKillChrome_removes (s : LaunchState) (d : String)
    (h1 : s.temporaryUserDataDir = some d) (h2 : s.dirExists = true) :
    (forceKillChrome false s).dirRemovals = s.dirRemovals + 1 ∧
    (forceKillChrome false s).dirExists = false := by
  unfold forceKillChrome removeFolderSyncSwallowed
  by_cases hk : s.pid.isSome && !s.killed && !s.chromeClosed <;>
    simp [hk, h1, h2]

/-- Once the directory is gone, no trigger removes anything further. -/
theorem applyTrigger_absent_dir (s : LaunchState) (t : KillTrigger)
    (h : s.dirExists = false) :
    (applyTrigger s t).dirRemovals = s.dirRemovals ∧
    (applyTrigger s t).dirExists = false := by
  cases t with
  | forced f =>
    unfold applyTrigger forceKillChrome removeFolderSyncSwallowed
    cases htd : s.temporaryUserDataDir <;>
      by_cases hk : s.pid.isSome && !s.killed && !s.chromeClosed <;>
        simp [htd, hk, h]
  | graceful f =>
    unfold applyTrigger killChrome forceKillChrome removeFolderSyncSwallowed
    cases htd : s.temporaryUserDataDir <;>
      by_cases hk : s.pid.isSome && !s.killed && !s.chromeClosed <;>
        by_cases hc : s.connected <;>
          simp [htd, hk, hc, h]
  | closeEvent f =>
    unfold applyTrigger chromeCloseEvent
    cases htd : s.temporaryUserDataDir <;> simp [htd, h]

/-- C2: for a SupervisedProcess owning a present temporary directory,
removal executes at most once over any sequence of forced-kill,
graceful-close and close-event triggers, and no error is ever surfaced;
two forced kills remove the directory exactly once, the second one
performing no further removal; and the forced and graceful paths both
running (in either order) also remove it exactly once. -/
theorem tempDir_removed_at_most_once (s : LaunchState) (d : String)
    (h1 : s.temporaryUserDataDir = some d) (h2 : s.dirExists = true)
    (h3 : s.dirRemovals = 0) (h4 : s.errorsSurfaced = 0) :
    (∀ ts : List KillTrigger,
      (runTriggers s ts).dirRemovals ≤ 1 ∧ (runTriggers s ts).errorsSurfaced = 0) ∧
    (runTriggers s [KillTrigger.forced false, KillTrigger.forced false]).dirRemovals = 1 ∧
    (runTriggers s [KillTrigger.forced false, KillTrigger.forced false]).dirRemovals
      = (runTriggers s [KillTrigger.forced false]).dirRemovals ∧
    (runTriggers s [KillTrigger.forced false, KillTrigger.graceful false]).dirRemovals = 1 ∧
    (runTriggers s [KillTrigger.graceful false, KillTrigger.forced false]).dirRemovals = 1 := by
  have hms : dirMeasure s = 1 := by simp [dirMeasure, h2, h3]
  have hfirst : (forceKillChrome false s).dirRemovals = 1 ∧
      (forceKillChrome false s).dirExists = false := by
    have := forceKillChrome_removes s d h1 h2
    exact ⟨by rw [this.1, h3], this.2⟩
  have hgfirst : (killChrome false s).dirRemovals = 1 ∧
      (killChrome false s).dirExists = false := by
    have hesc : killChrome false s
        = forceKillChrome false { s with listenersRegistered := false } := by
      unfold killChrome
      simp [h1]
    have := forceKillChrome_removes { s with listenersRegistered := false } d
      (by simp [h1]) (by simp [h2])
    rw [hesc]
    exact ⟨by rw [this.1]; simp [h3], this.2⟩
  refine ⟨?_, ?_, ?_, ?_, ?_⟩
  · intro ts
    have hm := runTriggers_measure ts s
    constructor
    · have : dirMeasure (runTriggers s ts) = 1 := hm.1.trans hms
      unfold dirMeasure at this
      omega
    · rw [hm.2, h4]
  · show (applyTrigger (applyTrigger s (KillTrigger.forced false))
        (KillTrigger.forced false)).dirRemovals = 1
    have := applyTrigger_absent_dir (forceKillChrome false s)
      (KillTrigger.forced false) hfirst.2
    rw [show applyTrigger s (KillTrigger.forced false) = forceKillChrome false s from rfl,
      this.1, hfirst.1]
  · show (applyTrigger (applyTrigger s (KillTrigger.forced false))
        (KillTrigger.forced false)).dirRemovals
      = (applyTrigger s (KillTrigger.forced false)).dirRemovals
    exact (applyTrigger_absent_dir (forceKillChrome false s)
      (KillTrigger.forced false) hfirst.2).1
  · show (applyTrigger (applyTrigger s (KillTrigger.forced false))
        (KillTrigger.graceful false)).dirRemovals = 1
    have := applyTrigger_absent_dir (forceKillChrome false s)
      (KillTrigger.graceful false) hfirst.2
    rw [show applyTrigger s (KillTrigger.forced false) = forceKillChrome false s from rfl,
      this.1, hfirst.1]
  · show (applyTrigger (applyTrigger s (KillTrigger.graceful false))
        (KillTrigger.forced false)).dirRemovals = 1
    have := applyTrigger_absent_dir (killChrome false s)
      (KillTrigger.forced false) hgfirst.2
    rw [show applyTrigger s (KillTrigger.graceful false) = killChrome false s from rfl,
      this.1, hgfirst.1]

/-- A concrete freshly-launched process owning a temporary directory. -/
def sampleLaunchState : LaunchState :=
  { pid := some 42, killed := false, chromeClosed := false,
    temporaryUserDataDir := some "/tmp/puppeteer_dev_profile-x", dirExists := true,
    dirRemovals := 0, killSignals := 0, listenersRegistered := true,
    connected := false, closeRequests := 0, errorsSurfaced := 0 }

/-- Witness for C2 at a concrete input: double forced kill on a process
owning a temporary directory removes it exactly once and surfaces no
error. -/
theorem tempDir_removed_at_most_once_witness :
    (sampleLaunchState.temporaryUserDataDir = some "/tmp/puppeteer_dev_profile-x" ∧
     sampleLaunchState.dirExists = true ∧
     sampleLaunchState.dirRemovals = 0 ∧
     sampleLaunchState.errorsSurfaced = 0) ∧
    ((∀ ts : List KillTrigger,
        (runTriggers sampleLaunchState ts).dirRemovals ≤ 1 ∧
        (runTriggers sampleLaunchState ts).errorsSurfaced = 0) ∧
     (runTriggers sampleLaunchState
        [KillTrigger.forced false, KillTrigger.forced false]).dirRemovals = 1 ∧
     (runTriggers sampleLaunchState
        [KillTrigger.forced false, KillTrigger.forced false]).dirRemovals
       = (runTriggers sampleLaunchState [KillTrigger.forced false]).dirRemovals ∧
     (runTriggers sampleLaunchState
        [KillTrigger.forced false, KillTrigger.graceful false]).dirRemovals = 1 ∧
     (runTriggers sampleLaunchState
        [KillTrigger.graceful false, KillTrigger.forced false]).dirRemovals = 1) :=
  ⟨⟨by decide, by decide, by decide, by decide⟩,
   tempDir_removed_at_most_once sampleLaunchState "/tmp/puppeteer_dev_profile-x"
     (by decide) (by decide) (by decide) (by decide)⟩

/-- C6: when the try block around the handshake and connection setup
fails, launch rethrows that same error as its single outcome, and the
forced-kill path has already run on the state paired with the rejection:
the listeners are deregistered, a still-live child got the OS kill, the
owned directory was removed by the best-effort cleanup, and no cleanup
error is surfaced. -/
theorem launch_failure_forces_cleanup (f : Bool) (s : LaunchState) (e : String)
    (body : Except String String) (h : body = Except.error e) :
    launchTryFinish f s body = (Except.error e, forceKillChrome f s) ∧
    (forceKillChrome f s).listenersRegistered = false ∧
    (s.pid.isSome = true → s.killed = false → s.chromeClosed = false →
      (forceKillChrome f s).killSignals = s.killSignals + 1) ∧
    (∀ d, s.temporaryUserDataDir = some d → s.dirExists = true → f = false →
      (forceKillChrome f s).dirExists = false ∧
      (forceKillChrome f s).dirRemovals = s.dirRemovals + 1) ∧
    (forceKillChrome f s).errorsSurfaced = s.errorsSurfaced := by
  subst h
  refine ⟨rfl, ?_, ?_, ?_, ?_⟩
  · unfold forceKillChrome removeFolderSyncSwallowed
    cases htd : s.temporaryUserDataDir <;>
      by_cases hk : s.pid.isSome && !s.killed && !s.chromeClosed <;>
        by_cases hd : s.dirExists && !f <;> simp [htd, hk, hd]
  · intro hp hk hc
    unfold forceKillChrome removeFolderSyncSwallowed
    cases htd : s.temporaryUserDataDir <;>
      by_cases hd : s.dirExists && !f <;> simp [htd, hp, hk, hc, hd]
  · intro d hd1 hd2 hf
    subst hf
    exact ⟨(forceKillChrome_removes s d hd1 hd2).2,
      (forceKillChrome_removes s d hd1 hd2).1⟩
  · exact (forceKillChrome_measure f s).2.1

/-- Witness for C6 at a concrete input: a failed handshake on the sample
process yields the single error outcome with the forced-kill effects. -/
theorem launch_failure_forces_cleanup_witness :
    ((Except.error "handshake failed" : Except String String)
        = Except.error "handshake failed") ∧
    (launchTryFinish false sampleLaunchState (Except.error "handshake failed")
        = (Except.error "handshake failed", forceKillChrome false sampleLaunchState) ∧
     (forceKillChrome false sampleLaunchState).listenersRegistered = false ∧
     (sampleLaunchState.pid.isSome = true → sampleLaunchState.killed = false →
        sampleLaunchState.chromeClosed = false →
        (forceKillChrome false sampleLaunchState).killSignals
          = sampleLaunchState.killSignals + 1) ∧
     (∀ d, sampleLaunchState.temporaryUserDataDir = some d →
        sampleLaunchState.dirExists = true → false = false →
        (forceKillChrome false sampleLaunchState).dirExists = false ∧
        (forceKillChrome false sampleLaunchState).dirRemovals
          = sampleLaunchState.dirRemovals + 1) ∧
     (forceKillChrome false sampleLaunchState).errorsSurfaced
        = sampleLaunchState.errorsSurfaced) :=
  ⟨rfl,
   launch_failure_forces_cleanup false sampleLaunchState "handshake failed"
     (Except.error "handshake failed") rfl⟩

/-- C10: when the close event fires for a process owning a temporary
directory and the asynchronous removal fails, the error is only logged
and waitForChromeToClose stays pending, never fulfilled — so a graceful
close that awaits it never returns to its caller. -/
theorem waitForChromeToClose_pending_on_removal_failure (d : String) :
    waitForChromeToCloseAfterClose (some d) true = (PromiseState.pending, 1) ∧
    (waitForChromeToCloseAfterClose (some d) true).1 ≠ PromiseState.fulfilled := by
  constructor
  · rfl
  · intro hcontra
    simp [waitForChromeToCloseAfterClose] at hcontra

end PuppeteerLauncher
